import Mathlib

/-!
Verification of the quiz-solver engine (src/quiz_solver.py) against its
natural-language specification.  The Python source is shallowly embedded:
pure helpers (`_parse_llm_response`, `extract_submit_info`, the answer
coercion in `submit_answer`) become Lean functions on strings, and the
`solve_quiz` retry loop becomes a fuel-indexed step function over an
explicit session state, with external effects (HTTP fetch, the LLM call,
HTTP submit, wall-clock durations) supplied by an oracle environment.
-/

namespace QuizSolver

/-! ### Python string primitives (ASCII fragment)

The embedding models Python `str` operations on the ASCII fragment:
`str.strip` removes the six ASCII whitespace characters, and `str.isdigit`
is modelled as ASCII decimal digits (Python additionally accepts some
Unicode digit characters; no claim in this development depends on them). -/

/-- Python whitespace characters (ASCII fragment of `str.strip`). -/

def pySpace (c : Char) : Bool :=
  c = ' ' || c = '\t' || c = '\n' || c = '\r' || c = '\x0b' || c = '\x0c'

/-- Python `s.strip()` on a character list: drop whitespace from both ends. -/

def pyStripL (cs : List Char) : List Char :=
  ((cs.dropWhile pySpace).reverse.dropWhile pySpace).reverse

/-- Python `s.strip()`. -/

def pyStrip (s : String) : String :=
  ⟨pyStripL s.toList⟩

/-- Python `s.startswith(pre)`. -/

def pyStartsWith (pre s : String) : Bool :=
  pre.toList.isPrefixOf s.toList

/-- Split a character list at every occurrence of the separator character
(Python `s.split('\n')` semantics: always at least one piece, empty pieces
kept). -/

def splitListOn (sep : Char) : List Char → List (List Char)
  | [] => [[]]
  | c :: rest =>
    let r := splitListOn sep rest
    if c = sep then [] :: r
    else
      match r with
      | [] => [[c]]
      | piece :: more => (c :: piece) :: more

/-- Python `s.split('\n')`. -/

def pySplitLines (s : String) : List String :=
  (splitListOn '\n' s.toList).map fun cs => ⟨cs⟩

/-- Remainder after the first occurrence of `sep` in a character list. -/

def afterFirst (sep : List Char) : List Char → Option (List Char)
  | [] => if sep.isEmpty then some [] else none
  | c :: rest =>
    if sep.isPrefixOf (c :: rest) then some ((c :: rest).drop sep.length)
    else afterFirst sep rest

/-- Python `s.split(sep, 1)[1]`: everything after the first occurrence of
`sep` in `s`.  Returns `""` when `sep` does not occur (the sole caller,
`_parse_llm_response`, only invokes this when `sep` occurs in `s`). -/

def pySplitOnceAfter (sep s : String) : String :=
  match afterFirst sep.toList s.toList with
  | some r => ⟨r⟩
  | none => ""

/-- Python truthiness of an optional string (`None` and `""` are falsy). -/

def pyTruthyOpt : Option String → Bool
  | none => false
  | some s => s ≠ ""

/-- Python `a or b` on optional strings (left value wins when truthy). -/

def pyOrOpt (a b : Option String) : Option String :=
  if pyTruthyOpt a then a else b

/-- Python `s.lstrip(c)` specialised to stripping leading hyphens. -/

def pyLstripDashes (s : String) : String :=
  ⟨s.toList.dropWhile (fun c => c = '-')⟩

/-- Python `s.isdigit()` (ASCII fragment): nonempty and all decimal digits. -/

def pyIsdigit (s : String) : Bool :=
  !s.toList.isEmpty && s.toList.all Char.isDigit

/-! ### Numeric parsing (CPython `float` / `int` on strings)

The value of a parsed float is modelled as the exact rational denoted by
the accepted literal; CPython rounds that rational to the nearest IEEE-754
double, a refinement this development never depends on.  The `inf`/`nan`
alternatives of CPython's grammar are omitted: they contain no `'.'` and
the sole call site (`submit_answer`) guards the float parse with
`'.' in answer`, so they are unreachable there. -/

/-- Numeric value of an ASCII digit. -/

def digitVal (c : Char) : Nat := c.toNat - 48

/-- Continue parsing a CPython `digitpart` (`digit (["_"] digit)*`) after at
least one digit was consumed: accumulates the value, counts the digits, and
returns the unconsumed remainder (an underscore must sit between digits). -/

def digitsCont (acc n : Nat) : List Char → Nat × Nat × List Char
  | [] => (acc, n, [])
  | c :: rest =>
    if c.isDigit then digitsCont (acc * 10 + digitVal c) (n + 1) rest
    else if c = '_' then
      match rest with
      | c2 :: rest2 =>
        if c2.isDigit then digitsCont (acc * 10 + digitVal c2) (n + 1) rest2
        else (acc, n, c :: rest)
      | [] => (acc, n, c :: rest)
    else (acc, n, c :: rest)

/-- Parse a CPython `digitpart`: fails unless the input starts with a digit.
Returns the value, the number of digits, and the remainder. -/

def digits1 : List Char → Option (Nat × Nat × List Char)
  | c :: rest => if c.isDigit then some (digitsCont (digitVal c) 1 rest) else none
  | [] => none

/-- Consume an optional leading sign, reporting whether it was negative. -/

def takeSign : List Char → Bool × List Char
  | [] => (false, [])
  | c :: r =>
    if c = '+' then (false, r)
    else if c = '-' then (true, r)
    else (false, c :: r)

/-- Parse an optional exponent part (`("e"|"E") [sign] digitpart`) and apply
it to the mantissa.  A malformed exponent is left unconsumed, which makes the
top-level parse fail on the leftover exactly as CPython's parser does. -/

def applyExp (m : ℚ) : List Char → Option (ℚ × List Char)
  | c :: rest =>
    if c = 'e' || c = 'E' then
      let se := takeSign rest
      match digits1 se.2 with
      | some (e, _, rest3) => some (if se.1 then m / 10 ^ e else m * 10 ^ e, rest3)
      | none => some (m, c :: rest)
    else some (m, c :: rest)
  | [] => some (m, [])

/-- Parse a CPython `floatnumber`:
`(digitpart ["." [digitpart]] | "." digitpart) [exponent]`. -/

def parseFloatNumber (cs : List Char) : Option (ℚ × List Char) :=
  match digits1 cs with
  | some (i, _, rest) =>
    match rest with
    | '.' :: rest2 =>
      match digits1 rest2 with
      | some (f, n2, rest3) => applyExp ((i : ℚ) + (f : ℚ) / 10 ^ n2) rest3
      | none => applyExp (i : ℚ) rest2
    | r => applyExp (i : ℚ) r
  | none =>
    match cs with
    | '.' :: rest2 =>
      match digits1 rest2 with
      | some (f, n2, rest3) => applyExp ((f : ℚ) / 10 ^ n2) rest3
      | none => none
    | _ => none

/-- CPython `float(s)` on the numeric grammar: optional whitespace, optional
sign, a `floatnumber`, optional whitespace; the exact rational value. -/

def pyParseFloat (s : String) : Option ℚ :=
  match parseFloatNumber (takeSign (s.toList.dropWhile pySpace)).2 with
  | some (q, rest) =>
    if (rest.dropWhile pySpace).isEmpty then
      some (if (takeSign (s.toList.dropWhile pySpace)).1 then -q else q)
    else none
  | none => none

/-- CPython `int(s)`: optional whitespace, optional sign, a `digitpart`,
optional whitespace. -/

def pyParseInt (s : String) : Option ℤ :=
  match digits1 (takeSign (s.toList.dropWhile pySpace)).2 with
  | some (v, _, rest) =>
    if (rest.dropWhile pySpace).isEmpty then
      some (if (takeSign (s.toList.dropWhile pySpace)).1 then -(v : ℤ) else (v : ℤ))
    else none
  | none => none

/-! ### Answer coercion (`submit_answer`, src/quiz_solver.py lines 172-181) -/

/-- Tagged answer value produced by the coercion in `submit_answer`. -/

inductive Answer
  | number (q : ℚ)
  | integer (n : ℤ)
  | text (s : String)
  deriving DecidableEq

/-- Answer coercion embedded from `submit_answer`: an empty string is falsy
and stays text; a string containing `'.'` is handed to `float` (a raised
`ValueError` is absorbed, keeping the string); otherwise, when the string
stripped of all leading hyphens is all digits, it is handed to `int` (again
absorbing `ValueError`); otherwise the string is kept. -/

def pyCoerce (answer : String) : Answer :=
  if answer = "" then .text answer
  else if answer.toList.contains '.' then
    match pyParseFloat answer with
    | some q => .number q
    | none => .text answer
  else if pyIsdigit (pyLstripDashes answer) then
    match pyParseInt answer with
    | some n => .integer n
    | none => .text answer
  else .text answer

/-! ### Submission-URL extraction (`extract_submit_info`, lines 147-164)

The three regex alternatives are (in Python syntax, where CLS abbreviates
the character class excluding whitespace, angle brackets and `'"'`):
`https?://CLS+/submit CLS*`, `https?://CLS+/api/submit CLS*`, and
`https?://CLS+`.  Because every character of `/submit` lies in CLS, a
greedy match starting at a scheme always extends over the whole maximal
CLS-run following `://`, and the `/submit` patterns succeed exactly when
the run contains the literal at an offset of at least one. -/

/-- Characters admitted by the regex class excluding whitespace, angle
brackets and the double quote. -/

def urlChar (c : Char) : Bool :=
  !(pySpace c || c = '<' || c = '>' || c = '"')

/-- Required literal of the first pattern. -/

def subPat : List Char := "/submit".toList

/-- Required literal of the second pattern. -/

def apiSubPat : List Char := "/api/submit".toList

/-- Split off a URL scheme (`https://` or `http://`) at the head. -/

def schemeSplit (cs : List Char) : Option (List Char × List Char) :=
  if "https://".toList.isPrefixOf cs then some ("https://".toList, cs.drop 8)
  else if "http://".toList.isPrefixOf cs then some ("http://".toList, cs.drop 7)
  else none

/-- Decide whether `pat` occurs in `run` at some offset of at least one
(the offset accounts for the mandatory `CLS+` before the literal). -/

def containsFrom1 (pat run : List Char) : Bool :=
  (List.range run.length).any fun j => decide (1 ≤ j) && pat.isPrefixOf (run.drop j)

/-- Match one URL pattern at offset `i`: a scheme, then the maximal run of
CLS characters, nonempty, containing the required literal (when one is
required) at offset at least one.  The greedy match always covers the whole
run, so the matched string is scheme plus run. -/

def matchUrlAt (req : Option (List Char)) (cs : List Char) (i : Nat) : Option (List Char) :=
  match schemeSplit (cs.drop i) with
  | none => none
  | some (scheme, rest) =>
    let run := rest.takeWhile urlChar
    match req with
    | none => if run.isEmpty then none else some (scheme ++ run)
    | some pat => if containsFrom1 pat run then some (scheme ++ run) else none

/-- Leftmost match of one URL pattern (the head of `re.findall`). -/

def firstUrlMatch (req : Option (List Char)) (cs : List Char) : Option (List Char) :=
  (List.range (cs.length + 1)).findSome? (matchUrlAt req cs)

/-- Embedding of `extract_submit_info`: try the `/submit` pattern, then the
`/api/submit` pattern, then any URL; return the first match of the first
pattern that matches at all. -/

def extractSubmitInfo (text : String) : Option String :=
  match firstUrlMatch (some subPat) text.toList with
  | some m => some ⟨m⟩
  | none =>
    match firstUrlMatch (some apiSubPat) text.toList with
    | some m => some ⟨m⟩
    | none => (firstUrlMatch none text.toList).map fun m => ⟨m⟩

/-- Variant of `extract_submit_info` described by claim C10: the same
ordered scan with the `/api/submit` pattern removed. -/

def extractSubmitInfoDropApi (text : String) : Option String :=
  match firstUrlMatch (some subPat) text.toList with
  | some m => some ⟨m⟩
  | none => (firstUrlMatch none text.toList).map fun m => ⟨m⟩

/-! ### LLM-response parsing (`_parse_llm_response`, lines 110-145) -/

/-- Line scan of `_parse_llm_response`: each line whose stripped form starts
with `ANSWER:` overwrites the answer with the stripped value after the first
`ANSWER:` occurrence; otherwise a line whose stripped form starts with
`SUBMIT_URL:` overwrites the URL when the stripped value starts with
`http`. -/

def scanLines : List String → Option String → Option String → Option String × Option String
  | [], a, u => (a, u)
  | line :: rest, a, u =>
    if pyStartsWith "ANSWER:" (pyStrip line) then
      scanLines rest (some (pyStrip (pySplitOnceAfter "ANSWER:" line))) u
    else if pyStartsWith "SUBMIT_URL:" (pyStrip line) then
      let cand := pyStrip (pySplitOnceAfter "SUBMIT_URL:" line)
      if pyStartsWith "http" cand then scanLines rest a (some cand)
      else scanLines rest a u
    else scanLines rest a u

/-- Fallback of `_parse_llm_response` when no truthy answer was scanned: the
stripped form of the last line that strips to something nonempty and does
not itself start (unstripped) with `SUBMIT_URL`. -/

def lastMeaningful (sections : List String) : Option String :=
  (sections.reverse.find? fun l =>
    !(pyStrip l == "") && !pyStartsWith "SUBMIT_URL" l).map pyStrip

/-- Embedding of `_parse_llm_response`: split on newlines, run the labelled
scan, apply the last-meaningful-line fallback when the scanned answer is
falsy, and fall back to `extract_submit_info` on the page text when the
scanned URL is falsy. -/

def parseLlmResponse (response fallbackText : String) : Option String × Option String :=
  let sections := pySplitLines response
  let scanned := scanLines sections none none
  let answer :=
    if !pyTruthyOpt scanned.1 && !sections.isEmpty then
      match lastMeaningful sections with
      | some v => some v
      | none => scanned.1
    else scanned.1
  let submitUrl :=
    if !pyTruthyOpt scanned.2 then extractSubmitInfo fallbackText else scanned.2
  (answer, submitUrl)

/-! ### The solve loop (`solve_quiz`, lines 215-284)

The loop is embedded as a step function over an explicit session state.
External effects are supplied by an oracle: for each attempt number the
oracle fixes what the fetch, the LLM call and the submission would do, and
how many seconds of wall clock each consumes.  Exceptions are modelled by
class, mirroring the Python handlers: `reqErr` stands for
`requests.RequestException` (which subsumes `requests.Timeout`), `otherErr`
for any other `Exception`, and `fatal` for a `BaseException` that no
handler in `solve_quiz` catches and that therefore propagates through the
`finally` block to the caller. -/

/-- Exception classes distinguished by the handlers of `solve_quiz`. -/

inductive PyExn
  | reqErr (msg : String)
  | otherErr (msg : String)
  | fatal (msg : String)
  deriving DecidableEq

/-- Decoded JSON body of a submission response: the `correct` and `url`
fields read by `solve_quiz` (further passthrough fields are irrelevant to
its control flow). -/

structure SubmissionResult where
  correct : Option Bool
  url : Option String
  deriving DecidableEq

/-- Structured outcome returned by `solve_quiz`: either a submission result
returned as-is, or an error dictionary with the given message. -/

inductive QuizOutcome
  | result (r : SubmissionResult)
  | error (msg : String)
  deriving DecidableEq

/-- Outcome of the whole call: a returned value or a propagated
`BaseException`. -/

inductive POut
  | ret (q : QuizOutcome)
  | raised (e : PyExn)
  deriving DecidableEq

deriving instance DecidableEq for Except

/-- Oracle for one `fetch_quiz_content` call: what `requests.get` does,
whether `_init_selenium` would succeed in producing a driver, and what the
Selenium render would do. -/

structure FetchSpec where
  req : Except PyExn String
  initOk : Bool
  render : Except PyExn String
  deriving DecidableEq

/-- Oracle for one `analyze_and_solve_with_llm` call: the service's text,
or an absorbed failure (the method catches every `Exception` and returns
`(None, None)`), or an uncatchable fault. -/

inductive LlmOutcome
  | ok (resp : String)
  | err
  | fatal (msg : String)
  deriving DecidableEq

/-- Oracle for one loop attempt, including the wall-clock seconds consumed
by each external call. -/

structure AttemptEnv where
  fetch : FetchSpec
  llm : LlmOutcome
  sub : Except PyExn SubmissionResult
  dtFetch : Nat
  dtLlm : Nat
  dtSub : Nat
  deriving DecidableEq

/-- Observable events of a session, stamped with the elapsed-seconds clock
at which the network call was issued. -/

inductive Ev
  | fetchCall (url : String) (clock : Nat)
  | acquireDriver
  | submitCall (url : String) (clock : Nat)
  | sleepBackoff (secs : Nat)
  | releaseDriver (ok : Bool)
  deriving DecidableEq

/-- Event classifiers used by the temporal claims. -/

def Ev.isFetch : Ev → Bool
  | .fetchCall _ _ => true
  | _ => false

/-- True exactly on submission events. -/

def Ev.isSubmit : Ev → Bool
  | .submitCall _ _ => true
  | _ => false

/-- True exactly on driver-acquisition events. -/

def Ev.isAcquire : Ev → Bool
  | .acquireDriver => true
  | _ => false

/-- True exactly on driver-release events. -/

def Ev.isRelease : Ev → Bool
  | .releaseDriver _ => true
  | _ => false

/-- Mutable session state of `solve_quiz`: the attempt counter, the current
quiz URL, the elapsed wall clock in seconds, whether the Selenium driver has
been acquired, and the event trace. -/

structure St where
  attempt : Nat
  url : String
  clock : Nat
  driver : Bool
  trace : List Ev
  deriving DecidableEq

/-- Embedding of `fetch_quiz_content`: try `requests.get`; on a requests
exception fall back to Selenium, lazily initialising the driver; if the
driver cannot be initialised the requests exception is re-raised; any other
exception propagates unchanged.  Returns the outcome, the driver flag after
the call, and whether the driver was acquired during this call. -/

def fetchStep (fs : FetchSpec) (driver : Bool) : Except PyExn String × Bool × Bool :=
  match fs.req with
  | .ok content => (.ok content, driver, false)
  | .error (.reqErr m) =>
    if driver then
      match fs.render with
      | .ok content => (.ok content, true, false)
      | .error e => (.error e, true, false)
    else if fs.initOk then
      match fs.render with
      | .ok content => (.ok content, true, true)
      | .error e => (.error e, true, true)
    else (.error (.reqErr m), false, false)
  | .error e => (.error e, driver, false)

/-- Text returned by the LLM call, when it returned any. -/

def llmResp : LlmOutcome → Option String
  | .ok r => some r
  | _ => none

/-- Lines 230-234 of `solve_quiz`: run `_parse_llm_response` on the LLM
text (an absorbed LLM failure yields `(None, None)`), then resolve the
submission URL as `llm_submit_url or extract_submit_info(question_text)`. -/

def attemptParse (resp : Option String) (content : String) : Option String × Option String :=
  match resp with
  | some r =>
    let p := parseLlmResponse r content
    (p.1, pyOrOpt p.2 (extractSubmitInfo content))
  | none => (none, pyOrOpt none (extractSubmitInfo content))

/-- Result of one loop-body execution: a terminal outcome, or a `continue`
back to the loop guard with an updated state. -/

inductive StepRes
  | done (out : POut) (st : St)
  | again (st : St)
  deriving DecidableEq

/-- State carried by a step result. -/

def StepRes.st : StepRes → St
  | .done _ s => s
  | .again s => s

/-- Embedding of the two exception handlers of `solve_quiz` (lines
261-273), entered with the already-incremented attempt counter in `st`:
a requests exception sleeps `2 ^ attempt` seconds and continues while
attempts remain, otherwise it becomes the final network-error result; any
other exception continues without sleeping while attempts remain, otherwise
its message becomes the final error; an uncatchable fault propagates. -/

def handleExnStep (maxRetries : Nat) (exn : PyExn) (st : St) : StepRes :=
  match exn with
  | .reqErr msg =>
    if st.attempt < maxRetries then
      .again { st with clock := st.clock + 2 ^ st.attempt
                     , trace := st.trace ++ [.sleepBackoff (2 ^ st.attempt)] }
    else .done (.ret (.error ("Network error: " ++ msg))) st
  | .otherErr msg =>
    if st.attempt < maxRetries then .again st
    else .done (.ret (.error msg)) st
  | .fatal msg => .done (.raised (.fatal msg)) st

/-- One execution of the loop body of `solve_quiz` (lines 223-273), to be
run only when the loop guard holds: increment the attempt counter, fetch,
parse, check the submission URL and the answer, submit, and decide whether
to chain to a returned next URL or terminate; exceptions from the fetch or
the submission go to the handlers. -/

def stepBody (e : AttemptEnv) (maxRetries : Nat) (st : St) : StepRes :=
  let fr := fetchStep e.fetch st.driver
  let st1 : St :=
    { st with attempt := st.attempt + 1
            , driver := fr.2.1
            , clock := st.clock + e.dtFetch
            , trace := st.trace ++ [.fetchCall st.url st.clock]
                ++ (if fr.2.2 then [.acquireDriver] else []) }
  match fr.1 with
  | .error exn => handleExnStep maxRetries exn st1
  | .ok content =>
    let st2 : St := { st1 with clock := st1.clock + e.dtLlm }
    match e.llm with
    | .fatal msg => .done (.raised (.fatal msg)) st2
    | l =>
      let p := attemptParse (llmResp l) content
      if !pyTruthyOpt p.2 then .done (.ret (.error "No submit URL found")) st2
      else if !pyTruthyOpt p.1 then .done (.ret (.error "Could not determine answer")) st2
      else
        let st3 : St :=
          { st2 with clock := st2.clock + e.dtSub
                   , trace := st2.trace ++ [.submitCall (p.2.getD "") st2.clock] }
        match e.sub with
        | .ok r =>
          if pyTruthyOpt r.url then .again { st3 with url := r.url.getD "" }
          else .done (.ret (.result r)) st3
        | .error exn => handleExnStep maxRetries exn st3

/-- The while loop of `solve_quiz` (lines 222-276).  The guard, checked at
the top of every iteration, is `attempt < maxRetries AND clock < 170`.  The
`fuel` argument is an artificial structural bound on the number of
iterations; since every iteration increments `attempt`, calling with
`fuel = maxRetries` (as `solveQuiz` does) makes the fuel run out exactly
when the attempt guard fails, and the fuel-exhaustion result coincides with
the guard-failure result. -/

def loopGo (env : Nat → AttemptEnv) (maxRetries : Nat) : Nat → St → POut × St
  | 0, st => (.ret (.error "Max retries exceeded or timeout"), st)
  | fuel + 1, st =>
    if st.attempt < maxRetries ∧ st.clock < 170 then
      match stepBody (env (st.attempt + 1)) maxRetries st with
      | .done out st2 => (out, st2)
      | .again st2 => loopGo env maxRetries fuel st2
    else (.ret (.error "Max retries exceeded or timeout"), st)

/-- Embedding of `solve_quiz`: run the loop from a fresh session state and,
in the `finally` block, release the Selenium driver when one was acquired;
`quitOk` says whether `driver.quit()` itself succeeds, and a failing quit is
absorbed (only logged), leaving the outcome untouched. -/

def solveQuiz (env : Nat → AttemptEnv) (quizUrl : String) (maxRetries : Nat)
    (quitOk : Bool) : POut × St :=
  let r := loopGo env maxRetries maxRetries
    { attempt := 0, url := quizUrl, clock := 0, driver := false, trace := [] }
  if r.2.driver then (r.1, { r.2 with trace := r.2.trace ++ [.releaseDriver quitOk] })
  else r

/-! ### Claim-specific rule formalisations and scripted environments -/

/-- Value contributed by one line to the `ANSWER:` scan: the stripped value
after the label, when the stripped line starts with the label. -/
def answerLineValue (line : String) : Option String :=
  if pyStartsWith "ANSWER:" (pyStrip line) then
    some (pyStrip (pySplitOnceAfter "ANSWER:" line))
  else none

/-- Value of the last `ANSWER:`-labelled line of the response (the first
labelled line of the reversed line list). -/
def lastAnswerScan (resp : String) : Option String :=
  (pySplitLines resp).reverse.findSome? answerLineValue

/-- Nonempty and all ASCII decimal digits (`str.isdigit` on a list). -/
def allDigits1 (cs : List Char) : Bool := !cs.isEmpty && cs.all Char.isDigit

/-- Character list with one leading hyphen removed. -/
def stripOneDash (cs : List Char) : List Char :=
  match cs with
  | [] => []
  | c :: r => if c = '-' then r else c :: r

/-- Character list with the first decimal point removed. -/
def removeFirstDot : List Char → List Char
  | [] => []
  | c :: r => if c = '.' then r else c :: removeFirstDot r

/-- Coercion rules exactly as claim C8 states them, evaluated in order on
the trimmed text: if it contains a `'.'` and the text stripped of one
leading `'-'` and the decimal point is all decimal digits, the result is
the parsed float of the text; else if the text stripped of one leading
`'-'` is all decimal digits, the result is the parsed integer; otherwise
the original text.  (Under each guard the corresponding parse succeeds, so
the zero fallbacks are unreachable.) -/
def claimCoerce (text : String) : Answer :=
  let t := (pyStrip text).toList
  if t.contains '.' && allDigits1 (removeFirstDot (stripOneDash t)) then
    match pyParseFloat text with
    | some q => .number q
    | none => .number 0
  else if allDigits1 (stripOneDash t) then
    match pyParseInt text with
    | some n => .integer n
    | none => .integer 0
  else .text text

/-- Decimal value of a digit run. -/
def digitsNatVal (cs : List Char) : Nat :=
  cs.foldl (fun a c => a * 10 + digitVal c) 0

/-- Integer shape actually accepted by the code: an optional single leading
hyphen followed by one or more decimal digits. -/
def singleDashInt (s : String) : Bool :=
  match s.toList with
  | [] => false
  | c :: rest => if c = '-' then allDigits1 rest else allDigits1 (c :: rest)

/-- Value of a string of integer shape. -/
def singleDashVal (s : String) : ℤ :=
  match s.toList with
  | [] => 0
  | c :: rest =>
    if c = '-' then -(digitsNatVal rest : ℤ) else (digitsNatVal (c :: rest) : ℤ)

/-- Coercion rules as amended: any text containing a `'.'` is handed to
CPython `float` and becomes a Number exactly when that parse accepts it;
otherwise a text of integer shape (optional single leading hyphen, then
digits) becomes an Integer of its decimal value; everything else stays
Text. -/
def amendedCoerce (text : String) : Answer :=
  if text.toList.contains '.' then
    match pyParseFloat text with
    | some q => .number q
    | none => .text text
  else if singleDashInt text then .integer (singleDashVal text)
  else .text text

/-- Fetch oracle succeeding immediately with the given page text. -/
def fetchOk (page : String) : FetchSpec :=
  { req := .ok page, initOk := false, render := .ok "" }

/-- LLM oracle emitting a labelled answer and submission URL. -/
def llmGood : LlmOutcome := .ok "ANSWER: 42\nSUBMIT_URL: https://x/submit"

/-- One fully successful attempt oracle returning the given result. -/
def envStep (r : SubmissionResult) : AttemptEnv :=
  { fetch := fetchOk "a page without urls", llm := llmGood, sub := .ok r,
    dtFetch := 0, dtLlm := 0, dtSub := 0 }

/-- Script for claim C1: attempt one chains to U2 carrying the given
correctness flag, attempt two returns a final result with no next URL. -/
def envChain (c : Option Bool) : Nat → AttemptEnv := fun n =>
  if n = 2 then envStep { correct := some true, url := none }
  else envStep { correct := c, url := some "U2" }

/-- Script for claim C4's witness: a page with no URL anywhere and an LLM
response carrying only an answer. -/
def envNoUrl : Nat → AttemptEnv := fun _ =>
  { fetch := fetchOk "a page without urls", llm := .ok "ANSWER: 42",
    sub := .ok { correct := none, url := none }, dtFetch := 0, dtLlm := 0, dtSub := 0 }

/-- Script witnessing the guard behaviour: a single successful attempt. -/
def envOnce : Nat → AttemptEnv := fun _ =>
  envStep { correct := some true, url := none }

/-- Script for claim C2's counterexample: the single attempt's fetch burns
200 seconds, after which the submission is still issued. -/
def envSlowFetch : Nat → AttemptEnv := fun _ =>
  { fetch := fetchOk "a page without urls", llm := llmGood,
    sub := .ok { correct := some true, url := none },
    dtFetch := 200, dtLlm := 0, dtSub := 0 }

/-- Script for claim C3: requests-level fetch failures on attempts one and
two, success on attempt three. -/
def envNetTwice : Nat → AttemptEnv := fun n =>
  if n ≤ 2 then
    { fetch := { req := .error (.reqErr ("E" ++ toString n)), initOk := false, render := .ok "" },
      llm := llmGood, sub := .ok { correct := some true, url := none },
      dtFetch := 0, dtLlm := 0, dtSub := 0 }
  else envStep { correct := some true, url := none }

/-- Script for claim C3's ceiling conjunct: every fetch fails with a
requests-level error. -/
def envNetAll : Nat → AttemptEnv := fun n =>
  { fetch := { req := .error (.reqErr ("E" ++ toString n)), initOk := false, render := .ok "" },
    llm := llmGood, sub := .ok { correct := some true, url := none },
    dtFetch := 0, dtLlm := 0, dtSub := 0 }

/-- Script for claim C3's counterexample: the first fetch fails with a
requests-level error after burning 169 seconds, so the backoff sleep
crosses the deadline. -/
def envNetLate : Nat → AttemptEnv := fun _ =>
  { fetch := { req := .error (.reqErr "E"), initOk := false, render := .ok "" },
    llm := llmGood, sub := .ok { correct := some true, url := none },
    dtFetch := 169, dtLlm := 0, dtSub := 0 }

/-! ### Claim C10: the second URL pattern is subsumed by the first -/

/-- Decomposition of the `/api/submit` literal as `/api` followed by the
`/submit` literal. -/
theorem apiSubPat_eq : apiSubPat = "/api".toList ++ subPat := by decide

/-- An occurrence of `/api/submit` at offset at least one inside a run
yields an occurrence of `/submit` at offset at least one. -/
theorem containsFrom1_api_imp_sub (run : List Char)
    (h : containsFrom1 apiSubPat run = true) : containsFrom1 subPat run = true := by
  unfold containsFrom1 at h ⊢
  rw [List.any_eq_true] at h ⊢
  obtain ⟨j, hj, hcond⟩ := h
  rw [Bool.and_eq_true, decide_eq_true_eq, List.isPrefixOf_iff_prefix] at hcond
  obtain ⟨hj1, hpre⟩ := hcond
  rw [apiSubPat_eq] at hpre
  obtain ⟨t, ht⟩ := hpre
  rw [List.append_assoc] at ht
  refine ⟨j + 4, ?_, ?_⟩
  · rw [List.mem_range] at hj ⊢
    have hlen : ("/api".toList ++ (subPat ++ t)).length ≤ (run.drop j).length := by
      exact le_of_eq (by rw [ht])
    simp only [List.length_append, List.length_drop] at hlen
    have : subPat.length = 7 := by decide
    omega
  · rw [Bool.and_eq_true, decide_eq_true_eq, List.isPrefixOf_iff_prefix]
    refine ⟨by omega, ?_⟩
    have : run.drop (j + 4) = subPat ++ t := by
      rw [← List.drop_drop, ← ht, List.drop_left' (by decide)]
    rw [this]
    exact ⟨t, rfl⟩

/-- A match of the `/api/submit` pattern at a position is also a match of
the `/submit` pattern there, with the same extent. -/
theorem matchUrlAt_api_imp_sub (cs : List Char) (i : Nat) (m : List Char)
    (h : matchUrlAt (some apiSubPat) cs i = some m) :
    matchUrlAt (some subPat) cs i = some m := by
  unfold matchUrlAt at h ⊢
  cases hs : schemeSplit (cs.drop i) with
  | none => rw [hs] at h; exact absurd h (by simp)
  | some p =>
    rw [hs] at h
    simp only at h ⊢
    by_cases hc : containsFrom1 apiSubPat (p.2.takeWhile urlChar) = true
    · rw [containsFrom1_api_imp_sub _ hc]
      rw [if_pos hc] at h
      simpa using h
    · rw [if_neg hc] at h
      exact absurd h (by simp)

/-- Claim C10: every substring matched by the `/api/submit` fallback
pattern is also matched (with the same extent) by the `/submit` pattern
tried before it, so the second pattern never produces the result:
`extract_submit_info` is extensionally equal to the same ordered scan with
the `/api/submit` pattern removed. -/
theorem extractSubmitInfo_api_redundant :
    (∀ (cs : List Char) (i : Nat) (m : List Char),
        matchUrlAt (some apiSubPat) cs i = some m →
        matchUrlAt (some subPat) cs i = some m) ∧
    ∀ text : String, extractSubmitInfo text = extractSubmitInfoDropApi text := by
  refine ⟨matchUrlAt_api_imp_sub, fun text => ?_⟩
  unfold extractSubmitInfo extractSubmitInfoDropApi
  cases hsub : firstUrlMatch (some subPat) text.toList with
  | some m => rfl
  | none =>
    have hapi : firstUrlMatch (some apiSubPat) text.toList = none := by
      unfold firstUrlMatch at hsub ⊢
      rw [List.findSome?_eq_none_iff] at hsub ⊢
      intro i hi
      cases hm : matchUrlAt (some apiSubPat) text.toList i with
      | none => rfl
      | some m =>
        exact absurd (hsub i hi) (by rw [matchUrlAt_api_imp_sub _ _ _ hm]; simp)
    rw [hapi]

/-- Witness for claim C10's subsumption conjunct at a concrete input. -/
theorem extractSubmitInfo_api_redundant_witness :
    matchUrlAt (some subPat) ("http://a/api/submit".toList) 0 =
      some ("http://a/api/submit".toList) :=
  extractSubmitInfo_api_redundant.1 _ 0 _ (by decide)

/-! ### Claims C6 and C7: the labelled answer scan -/

/-- The scan of `_parse_llm_response` keeps the value of the last
`ANSWER:`-labelled line, falling back to the accumulator. -/
theorem scanLines_answer (ls : List String) :
    ∀ a u, (scanLines ls a u).1 = (ls.reverse.findSome? answerLineValue).or a := by
  induction ls with
  | nil => intro a u; simp [scanLines]
  | cons line rest ih =>
    intro a u
    rw [List.reverse_cons, List.findSome?_append, Option.or_assoc]
    by_cases h1 : pyStartsWith "ANSWER:" (pyStrip line) = true
    · have hf : [line].findSome? answerLineValue
          = some (pyStrip (pySplitOnceAfter "ANSWER:" line)) := by
        simp [answerLineValue, h1]
      rw [hf]
      rw [scanLines, if_pos h1, ih]
      rfl
    · have hf : [line].findSome? answerLineValue = none := by
        simp [answerLineValue, h1]
      rw [hf]
      rw [scanLines, if_neg h1]
      by_cases h2 : pyStartsWith "SUBMIT_URL:" (pyStrip line) = true
      · rw [if_pos h2]
        by_cases h3 : pyStartsWith "http" (pyStrip (pySplitOnceAfter "SUBMIT_URL:" line)) = true
        · simp [h3, ih]
        · simp [h3, ih]
      · rw [if_neg h2, ih]; rfl

/-- Amended claim C6: the candidate answer kept by the scan is the trimmed
value after the last `ANSWER:` label (later labels overwrite earlier ones);
when that value is nonempty it is the answer returned, whatever the
fallback text. -/
theorem parse_answer_is_last_label (resp fb v : String)
    (hlast : lastAnswerScan resp = some v) (hv : v ≠ "") :
    (parseLlmResponse resp fb).1 = some v := by
  have hs : (scanLines (pySplitLines resp) none none).1 = some v := by
    rw [scanLines_answer]
    unfold lastAnswerScan at hlast
    rw [hlast]
    rfl
  have ht : pyTruthyOpt (some v) = true := by simp [pyTruthyOpt, hv]
  unfold parseLlmResponse
  simp only [hs, ht, Bool.not_true, Bool.false_and]
  rfl

/-- Witness for the amended claim C6 on a response carrying two `ANSWER:`
labels: the second label's value is returned. -/
theorem parse_answer_is_last_label_witness :
    (parseLlmResponse "ANSWER: a\nANSWER: b" "").1 = some "b" :=
  parse_answer_is_last_label "ANSWER: a\nANSWER: b" "" "b" (by decide) (by decide)

/-- Counterexample to claim C6 as stated: on a response whose lines carry
the `ANSWER:` label twice, the parser returns the value of the second
(latest) labelled line, not the value `a` of the earliest one. -/
theorem parse_answer_first_label_false :
    (parseLlmResponse "ANSWER: a\nANSWER: b" "").1 ≠ some "a" ∧
    (parseLlmResponse "ANSWER: a\nANSWER: b" "").1 = some "b" := by decide

/-- Amended claim C7: a found-but-empty `ANSWER:` value is
indistinguishable from an absent one — it is falsy, so the
last-non-empty-line fallback applies and its value is returned. -/
theorem parse_empty_answer_falls_back (resp fb v : String)
    (hscan : (scanLines (pySplitLines resp) none none).1 = some "")
    (hmean : lastMeaningful (pySplitLines resp) = some v) :
    (parseLlmResponse resp fb).1 = some v := by
  have hne : (pySplitLines resp).isEmpty = false := by
    cases hsec : pySplitLines resp with
    | nil => rw [hsec] at hmean; simp [lastMeaningful] at hmean
    | cons x xs => rfl
  unfold parseLlmResponse
  simp only [hscan, hmean, hne, pyTruthyOpt]
  simp

/-- Witness for the amended claim C7: an empty `ANSWER:` value on the first
line is discarded and the last meaningful line is returned instead. -/
theorem parse_empty_answer_falls_back_witness :
    (parseLlmResponse "ANSWER:\nhello" "").1 = some "hello" :=
  parse_empty_answer_falls_back "ANSWER:\nhello" "" "hello" (by decide) (by decide)

/-- Counterexample to claim C7 as stated: a response whose `ANSWER:` label
is present with an empty value does not yield the empty answer — the
fallback replaces it with the last non-empty line. -/
theorem parse_empty_answer_not_kept :
    (parseLlmResponse "ANSWER:\nhello" "").1 ≠ some "" ∧
    (parseLlmResponse "ANSWER:\nhello" "").1 = some "hello" := by decide

/-! ### Claim C8: answer coercion rules -/

/-- Counterexample to claim C8 as stated: `"+1.5"` fits neither of the
claim's numeric shapes (a leading plus sign is not covered by its digit
conditions), so the claim's rules keep it as Text; the code hands every
string containing a `'.'` to `float`, which accepts `"+1.5"`, so the
coercion does not return Text there. -/
theorem coerce_claim_rules_false :
    claimCoerce "+1.5" = Answer.text "+1.5" ∧
    pyCoerce "+1.5" ≠ Answer.text "+1.5" := by decide

/-- A digit is not a Python whitespace character. -/
theorem digit_not_pySpace {c : Char} (h : c.isDigit = true) : pySpace c = false := by
  have h1 : ¬c = ' ' := fun he => by rw [he] at h; exact absurd h (by decide)
  have h2 : ¬c = '\t' := fun he => by rw [he] at h; exact absurd h (by decide)
  have h3 : ¬c = '\n' := fun he => by rw [he] at h; exact absurd h (by decide)
  have h4 : ¬c = '\r' := fun he => by rw [he] at h; exact absurd h (by decide)
  have h5 : ¬c = '\x0b' := fun he => by rw [he] at h; exact absurd h (by decide)
  have h6 : ¬c = '\x0c' := fun he => by rw [he] at h; exact absurd h (by decide)
  simp [pySpace, h1, h2, h3, h4, h5, h6]

/-- Reading a sign off a literal hyphen. -/
theorem takeSign_dash (rest : List Char) : takeSign ('-' :: rest) = (true, rest) := rfl

/-- Reading a sign off an unsigned head character. -/
theorem takeSign_nosign {c : Char} (rest : List Char) (h1 : ¬c = '+') (h2 : ¬c = '-') :
    takeSign (c :: rest) = (false, c :: rest) := by
  unfold takeSign
  dsimp only
  rw [if_neg h1, if_neg h2]

/-- A digit is not a hyphen. -/
theorem digit_ne_dash {c : Char} (h : c.isDigit = true) : ¬c = '-' := by
  intro he; subst he; exact absurd h (by decide)

/-- A digit is not a plus sign. -/
theorem digit_ne_plus {c : Char} (h : c.isDigit = true) : ¬c = '+' := by
  intro he; subst he; exact absurd h (by decide)

/-- On an all-digit run the digit-part parser consumes everything,
accumulating the decimal value. -/
theorem digitsCont_digits (cs : List Char) : ∀ acc n, cs.all Char.isDigit = true →
    digitsCont acc n cs =
      (cs.foldl (fun a c => a * 10 + digitVal c) acc, n + cs.length, []) := by
  induction cs with
  | nil => intro acc n _; simp [digitsCont]
  | cons c rest ih =>
    intro acc n h
    rw [List.all_cons, Bool.and_eq_true] at h
    rw [digitsCont.eq_def]
    dsimp only
    rw [if_pos h.1, ih _ _ h.2]
    simp only [List.foldl_cons, List.length_cons, Prod.mk.injEq]
    exact ⟨trivial, by omega, trivial⟩

/-- CPython `int` on a string of integer shape: sign times digit value. -/
theorem pyParseInt_shape (c : Char) (rest : List Char) (s : String)
    (hl : s.toList = c :: rest) :
    (c = '-' → allDigits1 rest = true → pyParseInt s = some (-(digitsNatVal rest : ℤ))) ∧
    (¬c = '-' → allDigits1 (c :: rest) = true →
      pyParseInt s = some (digitsNatVal (c :: rest) : ℤ)) := by
  constructor
  · intro hc hall
    subst hc
    rcases rest with _ | ⟨r, rs⟩
    · exact absurd hall (by decide)
    · simp only [allDigits1, List.all_cons, Bool.and_eq_true, List.isEmpty_cons,
        Bool.not_false, true_and] at hall
      unfold pyParseInt
      rw [hl, List.dropWhile_cons, if_neg (by simp [pySpace]), takeSign_dash]
      dsimp only
      rw [digits1.eq_def]
      dsimp only
      rw [if_pos hall.1, digitsCont_digits rs _ _ hall.2]
      dsimp only
      simp [digitsNatVal, List.foldl_cons]
  · intro hc hall
    simp only [allDigits1, List.all_cons, Bool.and_eq_true, List.isEmpty_cons,
      Bool.not_false, true_and] at hall
    unfold pyParseInt
    rw [hl, List.dropWhile_cons, if_neg (by simp [digit_not_pySpace hall.1]),
      takeSign_nosign rest (digit_ne_plus hall.1) hc]
    dsimp only
    rw [digits1.eq_def]
    dsimp only
    rw [if_pos hall.1, digitsCont_digits rest _ _ hall.2]
    dsimp only
    simp [digitsNatVal, List.foldl_cons]

/-- Amended claim C8: the coercion is a pure total function equal to the
amended ordered rules, and it sends `"42"` to Integer 42, `"-3.5"` to
Number minus-seven-halves, `"-42"` to Integer minus-42 and `"forty-two"`
to Text `"forty-two"`. -/
theorem pyCoerce_follows_amended_rules :
    (∀ s : String, pyCoerce s = amendedCoerce s) ∧
    pyCoerce "42" = Answer.integer 42 ∧
    pyCoerce "-3.5" = Answer.number (-7 / 2) ∧
    pyCoerce "-42" = Answer.integer (-42) ∧
    pyCoerce "forty-two" = Answer.text "forty-two" := by
  refine ⟨fun s => ?_, by decide, ?_, by decide, by decide⟩
  · by_cases hemp : s = ""
    · subst hemp; decide
    · by_cases hdot : s.toList.contains '.' = true
      · unfold pyCoerce amendedCoerce
        rw [if_neg hemp]
        simp only [hdot, if_true]
      · unfold pyCoerce amendedCoerce
        rw [if_neg hemp]
        simp only [hdot, Bool.false_eq_true, if_false]
        rcases hl : s.toList with _ | ⟨c, rest⟩
        · have h1 : pyIsdigit (pyLstripDashes s) = false := by
            unfold pyIsdigit pyLstripDashes
            rw [hl]
            rfl
          have h2 : singleDashInt s = false := by unfold singleDashInt; rw [hl]
          rw [h1, h2]
          simp
        · by_cases hc : c = '-'
          · subst hc
            have h2 : singleDashInt s = allDigits1 rest := by
              unfold singleDashInt; rw [hl]; simp
            have hval : singleDashVal s = -(digitsNatVal rest : ℤ) := by
              unfold singleDashVal; rw [hl]; simp
            have hstrip : pyLstripDashes s = ⟨rest.dropWhile fun x => x = '-'⟩ := by
              unfold pyLstripDashes
              rw [hl, List.dropWhile_cons, if_pos (by simp)]
            by_cases hall : allDigits1 rest = true
            · rcases hr : rest with _ | ⟨r, rs⟩
              · rw [hr] at hall; exact absurd hall (by decide)
              · have hrd : r.isDigit = true := by
                  rw [hr] at hall
                  simp only [allDigits1, List.all_cons, Bool.and_eq_true] at hall
                  exact hall.2.1
                have h1 : pyIsdigit (pyLstripDashes s) = true := by
                  rw [hstrip, hr, List.dropWhile_cons, if_neg (by simp [digit_ne_dash hrd])]
                  rw [← hr]
                  exact hall
                rw [h1, h2, hall, hval, if_pos rfl, if_pos rfl]
                rw [(pyParseInt_shape '-' rest s hl).1 rfl hall]
            · simp only [h2, if_neg hall]
              by_cases h1 : pyIsdigit (pyLstripDashes s) = true
              · rcases hr : rest with _ | ⟨r, rs⟩
                · rw [hstrip, hr] at h1; exact absurd h1 (by decide)
                · by_cases hrdash : r = '-'
                  · have hpi : pyParseInt s = none := by
                      unfold pyParseInt
                      rw [hl, List.dropWhile_cons, if_neg (by simp [pySpace]),
                        takeSign_dash, hr, hrdash]
                      rfl
                    rw [h1, if_pos rfl, hpi]
                  · exfalso
                    rw [hstrip, hr, List.dropWhile_cons, if_neg (by simp [hrdash])] at h1
                    rw [hr] at hall
                    exact hall h1
              · rw [if_neg h1]
          · have h2 : singleDashInt s = allDigits1 (c :: rest) := by
              unfold singleDashInt; rw [hl]; simp [hc]
            have hval : singleDashVal s = (digitsNatVal (c :: rest) : ℤ) := by
              unfold singleDashVal; rw [hl]; simp [hc]
            have h1 : pyIsdigit (pyLstripDashes s) = allDigits1 (c :: rest) := by
              unfold pyIsdigit pyLstripDashes allDigits1
              rw [hl, List.dropWhile_cons, if_neg (by simp [hc])]
              rfl
            by_cases hall : allDigits1 (c :: rest) = true
            · rw [h1, h2, hall, hval, if_pos rfl, if_pos rfl]
              rw [(pyParseInt_shape c rest s hl).2 hc hall]
            · simp only [h1, h2, if_neg hall]
  · have h2 : pyCoerce "-3.5" =
        Answer.number (-(((3 : ℕ) : ℚ) + ((5 : ℕ) : ℚ) / 10 ^ (1 : ℕ))) := rfl
    rw [h2]
    congr 1
    push_cast
    norm_num

/-! ### Structural lemmas about one loop iteration -/

/-- Driver bookkeeping of a fetch: when the call reports an acquisition the
driver was absent and is now present; otherwise the flag is unchanged. -/
theorem fetchStep_driver (fs : FetchSpec) (d : Bool) :
    ((fetchStep fs d).2.2 = true → d = false ∧ (fetchStep fs d).2.1 = true) ∧
    ((fetchStep fs d).2.2 = false → (fetchStep fs d).2.1 = d) := by
  unfold fetchStep
  cases hreq : fs.req with
  | ok c => simp
  | error e =>
    cases e with
    | reqErr msg =>
      dsimp only
      cases d
      · cases hini : fs.initOk
        · simp
        · cases hr : fs.render <;> simp
      · cases hr : fs.render <;> simp
    | otherErr msg => simp
    | fatal msg => simp

/-- Every execution of the loop body increments the attempt counter by
exactly one, whatever it returns. -/
theorem stepBody_attempt (e : AttemptEnv) (m : Nat) (st : St) :
    (stepBody e m st).st.attempt = st.attempt + 1 := by
  unfold stepBody handleExnStep
  rcases hfr : fetchStep e.fetch st.driver with ⟨fres, drv, acq⟩
  dsimp only
  cases fres with
  | error exn => cases exn <;> dsimp only <;> split <;> rfl
  | ok content =>
    dsimp only
    cases e.llm
    case fatal msg => rfl
    all_goals
      dsimp only
      split
      · rfl
      · split
        · rfl
        · cases e.sub with
          | ok r => dsimp only; split <;> rfl
          | error exn => cases exn <;> dsimp only <;> split <;> rfl

/-- The loop body never emits a driver-release event. -/
theorem stepBody_release (e : AttemptEnv) (m : Nat) (st : St) :
    (stepBody e m st).st.trace.countP Ev.isRelease = st.trace.countP Ev.isRelease := by
  unfold stepBody handleExnStep
  rcases hfr : fetchStep e.fetch st.driver with ⟨fres, drv, acq⟩
  dsimp only
  cases fres with
  | error exn =>
    cases exn <;> dsimp only <;> split <;> cases acq <;>
      simp [StepRes.st, List.countP_append, List.countP_cons, Ev.isRelease]
  | ok content =>
    dsimp only
    cases e.llm
    case fatal msg =>
      cases acq <;>
        simp [StepRes.st, List.countP_append, List.countP_cons, Ev.isRelease]
    all_goals
      dsimp only
      split
      · cases acq <;>
          simp [StepRes.st, List.countP_append, List.countP_cons, Ev.isRelease]
      · split
        · cases acq <;>
            simp [StepRes.st, List.countP_append, List.countP_cons, Ev.isRelease]
        · cases e.sub with
          | ok r =>
            dsimp only
            split <;> cases acq <;>
              simp [StepRes.st, List.countP_append, List.countP_cons, Ev.isRelease]
          | error exn =>
            cases exn <;> dsimp only <;> split <;> cases acq <;>
              simp [StepRes.st, List.countP_append, List.countP_cons, Ev.isRelease]

/-- The loop body keeps the correspondence between the driver flag and the
presence of an acquisition event in the trace. -/
theorem stepBody_acquire (e : AttemptEnv) (m : Nat) (st : St)
    (h : st.trace.any Ev.isAcquire = st.driver) :
    (stepBody e m st).st.trace.any Ev.isAcquire = (stepBody e m st).st.driver := by
  unfold stepBody handleExnStep
  rcases hfr : fetchStep e.fetch st.driver with ⟨fres, drv, acq⟩
  have hacq := (fetchStep_driver e.fetch st.driver).1
  have hnacq := (fetchStep_driver e.fetch st.driver).2
  rw [hfr] at hacq hnacq
  dsimp only at hacq hnacq
  dsimp only
  have hdrv : st.driver || acq.rec false true = drv := by
    cases acq
    · simp [hnacq rfl]
    · obtain ⟨hd, h1⟩ := hacq rfl
      rw [hd, h1]
      rfl
  cases fres with
  | error exn =>
    cases exn <;> dsimp only <;> split <;> cases acq <;>
      simp_all [StepRes.st, List.any_append, Ev.isAcquire]
  | ok content =>
    dsimp only
    cases e.llm
    case fatal msg =>
      cases acq <;> simp_all [StepRes.st, List.any_append, Ev.isAcquire]
    all_goals
      dsimp only
      split
      · cases acq <;> simp_all [StepRes.st, List.any_append, Ev.isAcquire]
      · split
        · cases acq <;> simp_all [StepRes.st, List.any_append, Ev.isAcquire]
        · cases e.sub with
          | ok r =>
            dsimp only
            split <;> cases acq <;>
              simp_all [StepRes.st, List.any_append, Ev.isAcquire]
          | error exn =>
            cases exn <;> dsimp only <;> split <;> cases acq <;>
              simp_all [StepRes.st, List.any_append, Ev.isAcquire]

/-- Every event the loop body appends is either the fetch event of this
iteration or not a fetch event at all. -/
theorem stepBody_fetch_events (e : AttemptEnv) (m : Nat) (st : St) :
    ∀ ev ∈ (stepBody e m st).st.trace,
      ev ∈ st.trace ∨ ev = Ev.fetchCall st.url st.clock ∨ ev.isFetch = false := by
  unfold stepBody handleExnStep
  rcases hfr : fetchStep e.fetch st.driver with ⟨fres, drv, acq⟩
  dsimp only
  cases fres with
  | error exn =>
    cases exn <;> dsimp only <;> split <;> intro ev hev <;> cases acq <;>
      simp only [StepRes.st, List.mem_append, List.mem_cons,
        List.not_mem_nil, or_false] at hev <;>
      casesm* _ ∨ _ <;> simp_all [Ev.isFetch]
  | ok content =>
    dsimp only
    cases e.llm
    case fatal msg =>
      intro ev hev
      cases acq <;>
        simp only [StepRes.st, List.mem_append, List.mem_cons,
          List.not_mem_nil, or_false] at hev <;>
        casesm* _ ∨ _ <;> simp_all [Ev.isFetch]
    all_goals
      dsimp only
      split
      · intro ev hev
        cases acq <;>
          simp only [StepRes.st, List.mem_append, List.mem_cons,
            List.not_mem_nil, or_false] at hev <;>
          casesm* _ ∨ _ <;> simp_all [Ev.isFetch]
      · split
        · intro ev hev
          cases acq <;>
            simp only [StepRes.st, List.mem_append, List.mem_cons,
              List.not_mem_nil, or_false] at hev <;>
            casesm* _ ∨ _ <;> simp_all [Ev.isFetch]
        · cases e.sub with
          | ok r =>
            dsimp only
            split <;> intro ev hev <;> cases acq <;>
              simp only [StepRes.st, List.mem_append, List.mem_cons,
                List.not_mem_nil, or_false] at hev <;>
              casesm* _ ∨ _ <;> simp_all [Ev.isFetch]
          | error exn =>
            cases exn <;> dsimp only <;> split <;> intro ev hev <;> cases acq <;>
              simp only [StepRes.st, List.mem_append, List.mem_cons,
                List.not_mem_nil, or_false] at hev <;>
              casesm* _ ∨ _ <;> simp_all [Ev.isFetch]

/-- Failing the loop guard returns the timeout error with the state
untouched, whatever the fuel. -/
theorem loopGo_guard_fail (env : Nat → AttemptEnv) (m fuel : Nat) (st : St)
    (h : ¬(st.attempt < m ∧ st.clock < 170)) :
    loopGo env m fuel st = (.ret (.error "Max retries exceeded or timeout"), st) := by
  cases fuel with
  | zero => rfl
  | succ fuel => rw [loopGo, if_neg h]

/-- A state predicate preserved by the loop body under the guard is
preserved by the whole loop. -/
theorem loopGo_preserve (P : St → Prop) (env : Nat → AttemptEnv) (m : Nat)
    (hstep : ∀ e st, st.attempt < m → st.clock < 170 → P st → P (stepBody e m st).st) :
    ∀ fuel st, P st → P (loopGo env m fuel st).2 := by
  intro fuel
  induction fuel with
  | zero => intro st h; exact h
  | succ fuel ih =>
    intro st h
    rw [loopGo]
    split
    case isTrue hg =>
      have hstep2 := hstep (env (st.attempt + 1)) st hg.1 hg.2 h
      cases hsb : stepBody (env (st.attempt + 1)) m st with
      | done out st2 =>
        rw [hsb] at hstep2
        exact hstep2
      | again st2 =>
        rw [hsb] at hstep2
        exact ih st2 hstep2
    case isFalse => exact h

/-- The attempt counter never exceeds the retry ceiling. -/
theorem loopGo_attempt_le (env : Nat → AttemptEnv) (m : Nat) :
    ∀ fuel st, st.attempt ≤ m → (loopGo env m fuel st).2.attempt ≤ m :=
  loopGo_preserve (fun st => st.attempt ≤ m) env m
    (fun e st hlt _ _ => by dsimp only; rw [stepBody_attempt]; omega)

/-- Every fetch event in the final trace was stamped under the deadline. -/
theorem loopGo_fetch_clock (env : Nat → AttemptEnv) (m : Nat) :
    ∀ fuel st, (∀ u c, Ev.fetchCall u c ∈ st.trace → c < 170) →
      ∀ u c, Ev.fetchCall u c ∈ (loopGo env m fuel st).2.trace → c < 170 :=
  loopGo_preserve (fun st => ∀ u c, Ev.fetchCall u c ∈ st.trace → c < 170) env m
    (fun e st _ hck h => by
      dsimp only
      intro u c hmem
      rcases stepBody_fetch_events e m st _ hmem with h1 | h1 | h1
      · exact h u c h1
      · injection h1 with hu hc
        omega
      · simp [Ev.isFetch] at h1)

/-- The loop emits no release event and keeps the driver flag equivalent to
the presence of an acquisition event. -/
theorem loopGo_cleanup (env : Nat → AttemptEnv) (m : Nat) :
    ∀ fuel st,
      (st.trace.countP Ev.isRelease = 0 ∧ st.trace.any Ev.isAcquire = st.driver) →
      ((loopGo env m fuel st).2.trace.countP Ev.isRelease = 0 ∧
        (loopGo env m fuel st).2.trace.any Ev.isAcquire = (loopGo env m fuel st).2.driver) :=
  loopGo_preserve
    (fun st => st.trace.countP Ev.isRelease = 0 ∧ st.trace.any Ev.isAcquire = st.driver)
    env m
    (fun e st _ _ h => by
      dsimp only
      exact ⟨by rw [stepBody_release]; exact h.1, stepBody_acquire e m st h.2⟩)

/-- Claim C5: on every exit of `solve_quiz` the Selenium driver, when one
was acquired during the session, is released exactly once (one release
event, present exactly when an acquisition happened), and a failure of
`driver.quit()` itself is absorbed: the outcome of the call does not depend
on whether the quit succeeds. -/
theorem solveQuiz_releases_driver_once :
    (∀ (env : Nat → AttemptEnv) (url : String) (m : Nat) (q : Bool),
      (solveQuiz env url m q).2.trace.countP Ev.isRelease =
        (if (solveQuiz env url m q).2.trace.any Ev.isAcquire then 1 else 0)) ∧
    (∀ (env : Nat → AttemptEnv) (url : String) (m : Nat),
      (solveQuiz env url m true).1 = (solveQuiz env url m false).1) := by
  constructor
  · intro env url m q
    have h := loopGo_cleanup env m m ⟨0, url, 0, false, []⟩ ⟨rfl, rfl⟩
    unfold solveQuiz
    dsimp only
    split
    case isTrue hd =>
      simp [List.countP_append, List.any_append, List.countP_cons, Ev.isRelease,
        Ev.isAcquire, h.1, h.2, hd]
    case isFalse hd =>
      rw [Bool.not_eq_true] at hd
      rw [hd] at h
      simp [h.1, h.2]
  · intro env url m
    by_cases hd : (loopGo env m m ⟨0, url, 0, false, []⟩).2.driver = true
    · simp [solveQuiz, hd]
    · simp [solveQuiz, hd]

/-! ### Reduction lemmas for one loop iteration -/

/-- Reduction of the loop body when fetch, parse and submission all
succeed: the iteration decides between chaining (a `continue` with the
returned next URL) and terminating with the submission result, purely on
the truthiness of the result's `url` field. -/
theorem stepBody_submit_reduce (e : AttemptEnv) (m : Nat) (st : St)
    (content resp : String) (r : SubmissionResult)
    (hfetch : (fetchStep e.fetch st.driver).1 = .ok content)
    (hllm : e.llm = .ok resp ∨ e.llm = .err)
    (hsub : e.sub = .ok r)
    (htr2 : pyTruthyOpt (attemptParse (llmResp e.llm) content).2 = true)
    (htr1 : pyTruthyOpt (attemptParse (llmResp e.llm) content).1 = true) :
    stepBody e m st =
      (if pyTruthyOpt r.url = true then
        StepRes.again
          { attempt := st.attempt + 1, url := r.url.getD ""
            , clock := st.clock + e.dtFetch + e.dtLlm + e.dtSub
            , driver := (fetchStep e.fetch st.driver).2.1
            , trace := st.trace ++ [Ev.fetchCall st.url st.clock]
                ++ (if (fetchStep e.fetch st.driver).2.2 then [Ev.acquireDriver] else [])
                ++ [Ev.submitCall ((attemptParse (llmResp e.llm) content).2.getD "")
                      (st.clock + e.dtFetch + e.dtLlm)] }
      else
        StepRes.done (.ret (.result r))
          { attempt := st.attempt + 1, url := st.url
            , clock := st.clock + e.dtFetch + e.dtLlm + e.dtSub
            , driver := (fetchStep e.fetch st.driver).2.1
            , trace := st.trace ++ [Ev.fetchCall st.url st.clock]
                ++ (if (fetchStep e.fetch st.driver).2.2 then [Ev.acquireDriver] else [])
                ++ [Ev.submitCall ((attemptParse (llmResp e.llm) content).2.getD "")
                      (st.clock + e.dtFetch + e.dtLlm)] }) := by
  unfold stepBody
  rcases hfs : fetchStep e.fetch st.driver with ⟨fres, drv, acq⟩
  rw [hfs] at hfetch
  dsimp only at hfetch
  subst hfetch
  dsimp only
  rcases hllm with hllm | hllm <;>
    rw [hllm] at htr2 htr1 ⊢ <;>
    dsimp only [llmResp] at htr2 htr1 ⊢ <;>
    rw [hsub] <;>
    simp only [htr2, htr1, Bool.not_true, Bool.false_eq_true, if_false]

/-- Reduction of the loop body when the fetch succeeds but the parse
pipeline fails to produce a submission URL or an answer: the iteration
terminates at once with the corresponding structured error, appending
neither a sleep nor a submission to the trace. -/
theorem stepBody_parse_fail_reduce (e : AttemptEnv) (m : Nat) (st : St)
    (content : String)
    (hfetch : (fetchStep e.fetch st.driver).1 = .ok content)
    (hllm : (∃ resp, e.llm = .ok resp) ∨ e.llm = .err) :
    (pyTruthyOpt (attemptParse (llmResp e.llm) content).2 = false →
      stepBody e m st =
        StepRes.done (.ret (.error "No submit URL found"))
          { attempt := st.attempt + 1, url := st.url
            , clock := st.clock + e.dtFetch + e.dtLlm
            , driver := (fetchStep e.fetch st.driver).2.1
            , trace := st.trace ++ [Ev.fetchCall st.url st.clock]
                ++ (if (fetchStep e.fetch st.driver).2.2 then [Ev.acquireDriver] else []) }) ∧
    (pyTruthyOpt (attemptParse (llmResp e.llm) content).2 = true →
      pyTruthyOpt (attemptParse (llmResp e.llm) content).1 = false →
      stepBody e m st =
        StepRes.done (.ret (.error "Could not determine answer"))
          { attempt := st.attempt + 1, url := st.url
            , clock := st.clock + e.dtFetch + e.dtLlm
            , driver := (fetchStep e.fetch st.driver).2.1
            , trace := st.trace ++ [Ev.fetchCall st.url st.clock]
                ++ (if (fetchStep e.fetch st.driver).2.2 then [Ev.acquireDriver] else []) }) := by
  unfold stepBody
  rcases hfs : fetchStep e.fetch st.driver with ⟨fres, drv, acq⟩
  rw [hfs] at hfetch
  dsimp only at hfetch
  subst hfetch
  dsimp only
  constructor
  · intro htr2
    rcases hllm with ⟨resp, hllm⟩ | hllm <;>
      rw [hllm] at htr2 ⊢ <;>
      dsimp only [llmResp] at htr2 ⊢ <;>
      simp only [htr2, Bool.not_false, if_true]
  · intro htr2 htr1
    rcases hllm with ⟨resp, hllm⟩ | hllm <;>
      rw [hllm] at htr2 htr1 ⊢ <;>
      dsimp only [llmResp] at htr2 htr1 ⊢ <;>
      simp only [htr2, htr1, Bool.not_true, Bool.not_false,
        Bool.false_eq_true, if_false, if_true]

/-- Reduction of the loop body when the fetch raises a requests-level
exception: while attempts remain, the handler sleeps exactly two to the
power of the current attempt number and continues on the same URL;
otherwise it returns the network error as the final result. -/
theorem stepBody_netfail_reduce (e : AttemptEnv) (m : Nat) (st : St) (msg : String)
    (hnet : (fetchStep e.fetch st.driver).1 = .error (.reqErr msg)) :
    (st.attempt + 1 < m →
      stepBody e m st =
        StepRes.again
          { attempt := st.attempt + 1, url := st.url
            , clock := st.clock + e.dtFetch + 2 ^ (st.attempt + 1)
            , driver := (fetchStep e.fetch st.driver).2.1
            , trace := st.trace ++ [Ev.fetchCall st.url st.clock]
                ++ (if (fetchStep e.fetch st.driver).2.2 then [Ev.acquireDriver] else [])
                ++ [Ev.sleepBackoff (2 ^ (st.attempt + 1))] }) ∧
    (¬st.attempt + 1 < m →
      stepBody e m st =
        StepRes.done (.ret (.error ("Network error: " ++ msg)))
          { attempt := st.attempt + 1, url := st.url
            , clock := st.clock + e.dtFetch
            , driver := (fetchStep e.fetch st.driver).2.1
            , trace := st.trace ++ [Ev.fetchCall st.url st.clock]
                ++ (if (fetchStep e.fetch st.driver).2.2 then [Ev.acquireDriver] else []) }) := by
  unfold stepBody handleExnStep
  rcases hfs : fetchStep e.fetch st.driver with ⟨fres, drv, acq⟩
  rw [hfs] at hnet
  dsimp only at hnet
  subst hnet
  dsimp only
  constructor
  · intro hlt
    rw [if_pos hlt]
  · intro hlt
    rw [if_neg hlt]

/-! ### Scripted environments for the loop claims -/

/-- Claim C1 (confirmed): after a successful submission, a truthy `url`
field of the decoded result makes the loop continue from that URL —
whatever the `correct` flag says — and an absent next URL terminates the
session, returning the submission result verbatim; on the two-step script
the session performs exactly the four network events and ends with the
second result, for every correctness flag of the first step. -/
theorem solveQuiz_chains_on_next_url :
    (∀ (e : AttemptEnv) (env : Nat → AttemptEnv) (m fuel : Nat) (st : St)
        (content resp : String) (r : SubmissionResult),
      (st.attempt < m ∧ st.clock < 170) →
      env (st.attempt + 1) = e →
      (fetchStep e.fetch st.driver).1 = .ok content →
      (e.llm = .ok resp ∨ e.llm = .err) →
      e.sub = .ok r →
      pyTruthyOpt (attemptParse (llmResp e.llm) content).2 = true →
      pyTruthyOpt (attemptParse (llmResp e.llm) content).1 = true →
      ((pyTruthyOpt r.url = true →
          ∃ st2, loopGo env m (fuel + 1) st = loopGo env m fuel st2 ∧
            st2.url = r.url.getD "") ∧
        (pyTruthyOpt r.url = false →
          ∃ st2, loopGo env m (fuel + 1) st = (.ret (.result r), st2)))) ∧
    ∀ c : Option Bool,
      solveQuiz (envChain c) "U1" 3 true =
        (.ret (.result { correct := some true, url := none }),
          { attempt := 2, url := "U2", clock := 0, driver := false,
            trace := [.fetchCall "U1" 0, .submitCall "https://x/submit" 0,
                      .fetchCall "U2" 0, .submitCall "https://x/submit" 0] }) := by
  constructor
  · intro e env m fuel st content resp r hg henv hfetch hllm hsub htr2 htr1
    constructor
    · intro hurl
      rw [loopGo, if_pos hg, henv,
        stepBody_submit_reduce e m st content resp r hfetch hllm hsub htr2 htr1,
        if_pos hurl]
      exact ⟨_, rfl, rfl⟩
    · intro hurl
      rw [loopGo, if_pos hg, henv,
        stepBody_submit_reduce e m st content resp r hfetch hllm hsub htr2 htr1,
        if_neg (by rw [hurl]; exact Bool.false_ne_true)]
      exact ⟨_, rfl⟩
  · intro c
    cases c with
    | none => decide
    | some b => cases b <;> decide

/-- Witness for claim C1's general conjunct at the script's first step. -/
theorem solveQuiz_chains_on_next_url_witness :
    ∃ st2, loopGo (envChain (some false)) 3 3
        { attempt := 0, url := "U1", clock := 0, driver := false, trace := [] } =
      loopGo (envChain (some false)) 3 2 st2 ∧
      st2.url = (some "U2" : Option String).getD "" :=
  (solveQuiz_chains_on_next_url.1 (envChain (some false) 1) (envChain (some false)) 3 2
    { attempt := 0, url := "U1", clock := 0, driver := false, trace := [] }
    "a page without urls" "ANSWER: 42\nSUBMIT_URL: https://x/submit"
    { correct := some false, url := some "U2" }
    (by decide) rfl (by decide) (Or.inl rfl) rfl (by decide) (by decide)).1 (by decide)

/-- Claim C4 (confirmed): when after the reasoning step and all fallback
extractions no submission URL, or a URL but no answer, is available, the
loop returns the corresponding structured error immediately from that
iteration: no sleep, no further retry and no submission is issued (the
final state is exactly the current one plus the fetch bookkeeping). -/
theorem solveQuiz_structural_absence_terminal :
    ∀ (e : AttemptEnv) (env : Nat → AttemptEnv) (m fuel : Nat) (st : St)
      (content : String),
      (st.attempt < m ∧ st.clock < 170) →
      env (st.attempt + 1) = e →
      (fetchStep e.fetch st.driver).1 = .ok content →
      ((∃ resp, e.llm = .ok resp) ∨ e.llm = .err) →
      ((pyTruthyOpt (attemptParse (llmResp e.llm) content).2 = false →
        loopGo env m (fuel + 1) st =
          (.ret (.error "No submit URL found"),
            { attempt := st.attempt + 1, url := st.url
              , clock := st.clock + e.dtFetch + e.dtLlm
              , driver := (fetchStep e.fetch st.driver).2.1
              , trace := st.trace ++ [Ev.fetchCall st.url st.clock]
                  ++ (if (fetchStep e.fetch st.driver).2.2 then [Ev.acquireDriver] else []) })) ∧
      (pyTruthyOpt (attemptParse (llmResp e.llm) content).2 = true →
        pyTruthyOpt (attemptParse (llmResp e.llm) content).1 = false →
        loopGo env m (fuel + 1) st =
          (.ret (.error "Could not determine answer"),
            { attempt := st.attempt + 1, url := st.url
              , clock := st.clock + e.dtFetch + e.dtLlm
              , driver := (fetchStep e.fetch st.driver).2.1
              , trace := st.trace ++ [Ev.fetchCall st.url st.clock]
                  ++ (if (fetchStep e.fetch st.driver).2.2 then [Ev.acquireDriver] else []) }))) := by
  intro e env m fuel st content hg henv hfetch hllm
  constructor
  · intro htr2
    rw [loopGo, if_pos hg, henv,
      (stepBody_parse_fail_reduce e m st content hfetch hllm).1 htr2]
  · intro htr2 htr1
    rw [loopGo, if_pos hg, henv,
      (stepBody_parse_fail_reduce e m st content hfetch hllm).2 htr2 htr1]

/-- Witness for claim C4 on the no-URL script: the session ends on attempt
one with the structured error and a trace holding exactly one fetch. -/
theorem solveQuiz_structural_absence_terminal_witness :
    loopGo envNoUrl 3 3 { attempt := 0, url := "U1", clock := 0, driver := false, trace := [] } =
      (.ret (.error "No submit URL found"),
        { attempt := 1, url := "U1", clock := 0, driver := false,
          trace := [Ev.fetchCall "U1" 0] }) := by
  have h := (solveQuiz_structural_absence_terminal (envNoUrl 1) envNoUrl 3 2
    { attempt := 0, url := "U1", clock := 0, driver := false, trace := [] }
    "a page without urls" (by decide) rfl (by decide)
    (Or.inl ⟨"ANSWER: 42", rfl⟩)).1 (by decide)
  exact h.trans (by decide)

/-- Claim C2 (amended): the guard `attempt < max_retries AND elapsed < 170`
is checked at the top of every iteration; when it fails the loop returns
the `Max retries exceeded or timeout` error immediately with the state (so
also the trace) untouched — no further network call; consequently the
attempt counter never exceeds the retry ceiling and every fetch is issued
strictly before the deadline.  (A submission may still be issued past the
deadline inside an iteration that started before it, see the
counterexample.) -/
theorem solveQuiz_guard_bounds_attempts_and_fetches :
    (∀ (env : Nat → AttemptEnv) (m fuel : Nat) (st : St),
      ¬(st.attempt < m ∧ st.clock < 170) →
      loopGo env m fuel st = (.ret (.error "Max retries exceeded or timeout"), st)) ∧
    (∀ (env : Nat → AttemptEnv) (url : String) (m : Nat) (q : Bool),
      (solveQuiz env url m q).2.attempt ≤ m) ∧
    (∀ (env : Nat → AttemptEnv) (url : String) (m : Nat) (q : Bool) (u : String) (c : Nat),
      Ev.fetchCall u c ∈ (solveQuiz env url m q).2.trace → c < 170) := by
  refine ⟨loopGo_guard_fail, ?_, ?_⟩
  · intro env url m q
    have h := loopGo_attempt_le env m m ⟨0, url, 0, false, []⟩ (Nat.zero_le m)
    unfold solveQuiz
    dsimp only
    split
    · exact h
    · exact h
  · intro env url m q u c hmem
    have h := loopGo_fetch_clock env m m ⟨0, url, 0, false, []⟩ (by intro u c h; cases h)
    unfold solveQuiz at hmem
    dsimp only at hmem
    rcases hsp : (loopGo env m m ⟨0, url, 0, false, []⟩).2.driver with _ | _ <;>
      rw [hsp] at hmem
    · rw [if_neg Bool.false_ne_true] at hmem
      exact h u c hmem
    · rw [if_pos rfl] at hmem
      dsimp only at hmem
      rw [List.mem_append] at hmem
      rcases hmem with hmem | hmem
      · exact h u c hmem
      · simp at hmem

/-- Witness for claim C2's amended theorem: a guard-failing state is
returned untouched, the final attempt count of a run is bounded, and the
fetch of a finished run was stamped before the deadline. -/
theorem solveQuiz_guard_bounds_attempts_and_fetches_witness :
    loopGo envOnce 3 5 { attempt := 3, url := "U1", clock := 0, driver := false, trace := [] } =
      (.ret (.error "Max retries exceeded or timeout"),
        { attempt := 3, url := "U1", clock := 0, driver := false, trace := [] }) ∧
    (solveQuiz envOnce "U1" 3 true).2.attempt ≤ 3 ∧ (0 : Nat) < 170 :=
  ⟨solveQuiz_guard_bounds_attempts_and_fetches.1 envOnce 3 5
      { attempt := 3, url := "U1", clock := 0, driver := false, trace := [] } (by decide),
    solveQuiz_guard_bounds_attempts_and_fetches.2.1 envOnce "U1" 3 true,
    solveQuiz_guard_bounds_attempts_and_fetches.2.2 envOnce "U1" 3 true "U1" 0 (by decide)⟩

/-- Counterexample to claim C2 as stated: the claim that no fetch or
submit is ever issued after the budget is exhausted fails — an iteration
entered before the deadline still submits after it; here the submission is
stamped at elapsed 200, past the 170-second budget. -/
theorem solveQuiz_submit_after_budget :
    (solveQuiz envSlowFetch "U1" 3 true).2.trace =
      [Ev.fetchCall "U1" 0, Ev.submitCall "https://x/submit" 200] ∧
    (170 : Nat) ≤ 200 := by decide

/-- Claim C3 (amended): a requests-level failure with attempts remaining
sleeps exactly two to the power of the current attempt and returns to the
loop top on the same URL — the retry then actually happens only if the
deadline also survives the backoff sleep; on the fail-fail-succeed script
the session sleeps twice with strictly increasing delays (two then four
seconds), refetches the same URL each time, and succeeds with the attempt
counter at three; when the attempt ceiling is reached instead, the last
network error becomes the final reported error result. -/
theorem solveQuiz_net_failure_backoff :
    (∀ (e : AttemptEnv) (env : Nat → AttemptEnv) (m fuel : Nat) (st : St) (msg : String),
      (st.attempt < m ∧ st.clock < 170) →
      env (st.attempt + 1) = e →
      (fetchStep e.fetch st.driver).1 = .error (.reqErr msg) →
      st.attempt + 1 < m →
      loopGo env m (fuel + 1) st =
        loopGo env m fuel
          { attempt := st.attempt + 1, url := st.url
            , clock := st.clock + e.dtFetch + 2 ^ (st.attempt + 1)
            , driver := (fetchStep e.fetch st.driver).2.1
            , trace := st.trace ++ [Ev.fetchCall st.url st.clock]
                ++ (if (fetchStep e.fetch st.driver).2.2 then [Ev.acquireDriver] else [])
                ++ [Ev.sleepBackoff (2 ^ (st.attempt + 1))] }) ∧
    solveQuiz envNetTwice "U1" 3 true =
      (.ret (.result { correct := some true, url := none }),
        { attempt := 3, url := "U1", clock := 6, driver := false,
          trace := [Ev.fetchCall "U1" 0, Ev.sleepBackoff 2, Ev.fetchCall "U1" 2,
                    Ev.sleepBackoff 4, Ev.fetchCall "U1" 6,
                    Ev.submitCall "https://x/submit" 6] }) ∧
    solveQuiz envNetAll "U1" 3 true =
      (.ret (.error "Network error: E3"),
        { attempt := 3, url := "U1", clock := 6, driver := false,
          trace := [Ev.fetchCall "U1" 0, Ev.sleepBackoff 2, Ev.fetchCall "U1" 2,
                    Ev.sleepBackoff 4, Ev.fetchCall "U1" 6] }) := by
  refine ⟨?_, by decide, by decide⟩
  intro e env m fuel st msg hg henv hnet hlt
  rw [loopGo, if_pos hg, henv, (stepBody_netfail_reduce e m st msg hnet).1 hlt]

/-- Witness for claim C3's backoff conjunct at the script's first attempt. -/
theorem solveQuiz_net_failure_backoff_witness :
    loopGo envNetTwice 3 3 { attempt := 0, url := "U1", clock := 0, driver := false, trace := [] } =
      loopGo envNetTwice 3 2
        { attempt := 1, url := "U1", clock := 2, driver := false,
          trace := [Ev.fetchCall "U1" 0, Ev.sleepBackoff 2] } := by
  have h := solveQuiz_net_failure_backoff.1 (envNetTwice 1) envNetTwice 3 2
    { attempt := 0, url := "U1", clock := 0, driver := false, trace := [] }
    "E1" (by decide) rfl (by decide) (by decide)
  exact h.trans (by decide)

/-- Counterexample to claim C3 as stated: at the failure both attempts
(one of three) and the deadline (elapsed 169 of 170) remain, and the
orchestrator does sleep two seconds — but it does not retry the URL: the
sleep exhausts the budget, the guard fails, and the session ends with the
timeout error after exactly one fetch. -/
theorem solveQuiz_backoff_can_exhaust_deadline :
    solveQuiz envNetLate "U1" 3 true =
      (.ret (.error "Max retries exceeded or timeout"),
        { attempt := 1, url := "U1", clock := 171, driver := false,
          trace := [Ev.fetchCall "U1" 0, Ev.sleepBackoff 2] }) ∧
    (1 : Nat) < 3 ∧ (169 : Nat) < 170 := by decide

end QuizSolver
